import Mathlib

/-!
Verification of the csdfpy dimension core.

This file is a shallow embedding of `src/csdfpy/dimensions/__init__.py`
(the `Dimension` facade) and `src/csdfpy/dimensions/labeled.py`
(`LabeledDimension`), together with definitions modelled from the
specification for the parts of the package that the sources do not
include (`LinearDimension`, `MonotonicDimension`, `csdfpy.utils`).
Quantities are modelled over exact rationals; the astropy quantity
service is modelled as an opaque dimensionality tag plus a rational
conversion factor, as the specification directs.
-/

set_option autoImplicit false

/-- Kinds of Python exception raised by the dimension core. -/
inductive PyError where
  | valueError
  | keyError
  | typeError
  | attributeError
  | notImplementedError
  | unitConversionError
  deriving DecidableEq, Repr

/-- Model of an astropy unit as used by this core: an opaque physical
dimensionality tag (the spec treats the quantity service as an opaque
collaborator), a rational conversion factor to the base unit of that
dimensionality, and a display symbol. -/
structure PhysUnit where
  dim : String
  factor : ℚ
  symbol : String
  deriving DecidableEq, Repr

/-- Metre, the base length unit of the model. -/
def unit_m : PhysUnit := ⟨("length"), 1, ("m")⟩

/-- Centimetre. -/
def unit_cm : PhysUnit := ⟨("length"), 1/100, ("cm")⟩

/-- Kilometre. -/
def unit_km : PhysUnit := ⟨("length"), 1000, ("km")⟩

/-- Second. -/
def unit_s : PhysUnit := ⟨("time"), 1, ("s")⟩

/-- Metre per second, the base speed unit of the model. -/
def unit_mps : PhysUnit := ⟨("speed"), 1, ("m/s")⟩

/-- Kilometre per second. -/
def unit_kmps : PhysUnit := ⟨("speed"), 1000, ("km/s")⟩

/-- A scalar astropy quantity: a rational magnitude with a unit. -/
structure Quantity where
  value : ℚ
  unit : PhysUnit
  deriving DecidableEq, Repr

/-- Conversion of a scalar quantity to another unit; raises a
unit-conversion error when the physical dimensionalities differ. -/
def Quantity.convert (q : Quantity) (u : PhysUnit) : Except PyError Quantity :=
  if q.unit.dim = u.dim then .ok ⟨q.value * q.unit.factor / u.factor, u⟩
  else .error .unitConversionError

/-- An astropy quantity array: one unit shared by a list of magnitudes. -/
structure QuantityArr where
  values : List ℚ
  unit : PhysUnit
  deriving DecidableEq, Repr

/-- Addition of a scalar quantity to a quantity array; the result keeps
the array's unit, as astropy keeps the left operand's unit. -/
def qarr_add (a : QuantityArr) (q : Quantity) : Except PyError QuantityArr :=
  match q.convert a.unit with
  | .ok q' => .ok ⟨a.values.map (fun v => v + q'.value), a.unit⟩
  | .error e => .error e

/-- Conversion of a quantity array to another unit. -/
def qarr_to (a : QuantityArr) (u : PhysUnit) : Except PyError QuantityArr :=
  if a.unit.dim = u.dim then .ok ⟨a.values.map (fun v => v * a.unit.factor / u.factor), u⟩
  else .error .unitConversionError

/-- A period quantity: either infinite (non-periodic, the default) or a
finite rational magnitude, with a unit. -/
structure PeriodQ where
  isInf : Bool
  value : ℚ
  unit : PhysUnit
  deriving DecidableEq, Repr

/-- The default, infinite period in the given unit. -/
def PeriodQ.infinite (u : PhysUnit) : PeriodQ := ⟨true, 0, u⟩

/-- Application metadata: an opaque key-value map. -/
abbrev App := List (String × String)

/-- Modelled from the spec: `linear.py` is not under `src/`. The index
array `J_k` of a linear dimension, as defined in the `Dimension` class
docstring (src/csdfpy/dimensions/__init__.py lines 53-67) and section
4.2 of the spec: `[0, 1, ..., N-1]` when `fft_output_order` is false;
`[0, ..., N/2-1, -N/2, ..., -1]` for even `N` and, with `T = N-1`,
`[0, ..., T/2, -T/2, ..., -1]` for odd `N` when it is true. -/
def index_array (n : Nat) (fft : Bool) : List Int :=
  if !fft then (List.range n).map (fun (k : Nat) => (k : Int))
  else if n % 2 = 0 then
    (List.range (n / 2)).map (fun (k : Nat) => (k : Int)) ++
      (List.range (n / 2)).map (fun (k : Nat) => (k : Int) - (n / 2 : Nat))
  else
    (List.range ((n - 1) / 2 + 1)).map (fun (k : Nat) => (k : Int)) ++
      (List.range ((n - 1) / 2)).map (fun (k : Nat) => (k : Int) - ((n - 1) / 2 : Nat))

/-- Pointwise description of the index array: entry `k` is `k` while
`2k < N` and `k - N` afterwards, uniformly in the parity of `N`. -/
theorem index_array_fft_eq (n : Nat) :
    index_array n true =
      (List.range n).map (fun (k : Nat) => if 2 * k < n then (k : Int) else (k : Int) - n) := by
  rcases Nat.even_or_odd n with ⟨m, hm⟩ | ⟨m, hm⟩
  · subst hm
    have h2 : (m + m) % 2 = 0 := by omega
    have hsplit : List.range (m + m) = List.range m ++ (List.range m).map (m + ·) :=
      List.range_add m m
    rw [index_array, if_neg (by simp), if_pos h2, hsplit, List.map_append, List.map_map]
    have hd : (m + m) / 2 = m := by omega
    rw [hd]
    congr 1
    · apply List.map_congr_left
      intro a ha
      have : a < m := List.mem_range.mp ha
      simp only [if_pos (by omega : 2 * a < m + m)]
    · apply List.map_congr_left
      intro a ha
      have : a < m := List.mem_range.mp ha
      simp only [Function.comp_apply, if_neg (by omega : ¬ 2 * (m + a) < m + m)]
      push_cast
      ring
  · subst hm
    have h2 : ¬ ((2 * m + 1) % 2 = 0) := by omega
    have hd : (2 * m + 1 - 1) / 2 = m := by omega
    have hsplit : List.range (2 * m + 1) = List.range (m + 1) ++ (List.range m).map ((m + 1) + ·) := by
      have h : 2 * m + 1 = (m + 1) + m := by omega
      rw [h, List.range_add]
    rw [index_array, if_neg (by simp), if_neg h2, hd, hsplit,
      List.map_append, List.map_map]
    congr 1
    · apply List.map_congr_left
      intro a ha
      have : a < m + 1 := List.mem_range.mp ha
      simp only [if_pos (by omega : 2 * a < 2 * m + 1)]
    · apply List.map_congr_left
      intro a ha
      have : a < m := List.mem_range.mp ha
      simp only [Function.comp_apply, if_neg (by omega : ¬ 2 * ((m + 1) + a) < 2 * m + 1)]
      push_cast
      ring

/-- Python scalar values that appear as label-array elements in the
claims: strings and integers. -/
inductive PyScalar where
  | str (s : String)
  | int (n : Int)
  deriving DecidableEq, Repr

/-- The string numpy coerces a scalar to when building a string-dtype
array from a mixed list. -/
def np_coerce : PyScalar → String
  | .str s => s
  | .int n => toString n

/-- A numpy array as stored in `LabeledDimension._labels`: either a
proper one-dimensional string array or the zero-dimensional array that
`np.asarray` builds from a scalar. -/
inductive NpArray where
  | ofList (xs : List String)
  | ofScalar (x : PyScalar)
  deriving DecidableEq, Repr

/-- The `tolist` view of a stored numpy label array. -/
def NpArray.tolist : NpArray → List String
  | .ofList xs => xs
  | .ofScalar x => [np_coerce x]

/-- Values assignable to the `labels` property: a list (sequence) or a
bare scalar. -/
inductive LabelsInput where
  | list (xs : List PyScalar)
  | scalar (x : PyScalar)
  deriving DecidableEq, Repr

/-- Behaviour of `np.asarray` on a labels assignment: a list becomes a
string array with every element coerced to the common string dtype; a
scalar becomes a zero-dimensional array. Neither case raises. -/
def np_asarray : LabelsInput → NpArray
  | .list xs => .ofList (xs.map np_coerce)
  | .scalar x => .ofScalar x

/-- Python `len` of a labels assignment: defined for lists and strings,
a `TypeError` for a bare integer. -/
def py_len : LabelsInput → Except PyError Int
  | .list xs => .ok xs.length
  | .scalar (.str s) => .ok s.length
  | .scalar (.int _) => .error .typeError

/-- Python slicing `xs[:n]` with an integer bound, including the
negative-index convention. -/
def py_slice {α : Type} (n : Int) (xs : List α) : List α :=
  if 0 ≤ n then xs.take n.toNat else xs.take ((xs.length : Int) + n).toNat

/-- The reciprocal record of a quantitative dimension, modelled with its
metadata fields; defaults are empty (spec section 4.3: pure metadata
storage, field-by-field). -/
structure Reciprocal where
  label : String
  description : String
  application : App
  deriving DecidableEq, Repr

/-- The default reciprocal template of `Dimension.__init__` (all fields
at their defaults). -/
def default_reciprocal : Reciprocal := ⟨(""), (""), []⟩

/-- Keys of a nested `reciprocal` sub-dictionary given to the
constructor; absent keys keep the default template's values. -/
structure ReciprocalInput where
  label : Option String := none
  description : Option String := none
  application : Option App := none
  deriving DecidableEq, Repr

/-- The field-by-field merge of an input `reciprocal` sub-dictionary
into the default template (src `__init__.py` lines 166-172). -/
def merge_reciprocal : Option ReciprocalInput → Reciprocal
  | none => default_reciprocal
  | some r => ⟨r.label.getD (""), r.description.getD (""), r.application.getD []⟩

/-- The input dictionary of `Dimension.__init__`: each key of the
`default` template (src `__init__.py` lines 133-157), absent keys as
`none`. `type'` stands for the Python key `type`, which is a reserved
word in Lean. Monotonic `coordinates` values and scalar quantities are
held in parsed form, the structured content of their quantity strings. -/
structure InputDict where
  type' : Option String := none
  description : Option String := none
  count : Option Int := none
  increment : Option Quantity := none
  labels : Option (List String) := none
  coordinates : Option (List Quantity) := none
  coordinates_offset : Option Quantity := none
  origin_offset : Option Quantity := none
  fft_output_order : Option Bool := none
  period : Option PeriodQ := none
  quantity_name : Option String := none
  label : Option String := none
  application : Option App := none
  reciprocal : Option ReciprocalInput := none
  deriving DecidableEq, Repr

/-- The labeled dimension subtype, from src `labeled.py`: slots
`_count`, `_labels`, `_label`, `_description`, `_application`. -/
structure LabeledDimension where
  _count : Int
  _labels : NpArray
  _label : String
  _description : String
  _application : App
  deriving DecidableEq, Repr

/-- `LabeledDimension.__init__` (src `labeled.py` lines 24-31): stores
description, application and label, then assigns `labels` through the
setter, which stores the array and derives the count. -/
def labeled_init (labels : List String) (label description : String)
    (application : App) : LabeledDimension :=
  { _count := labels.length
    _labels := .ofList labels
    _label := label
    _description := description
    _application := application }

/-- The `labels` setter of `LabeledDimension` (src `labeled.py` lines
85-88): `self._labels = np.asarray(labels)` followed by
`self._count = len(labels)`. The array is stored before `len` is
evaluated, so a failing `len` leaves `_labels` already replaced. No
validation of element types is performed. -/
def LabeledDimension.labels_set (d : LabeledDimension) (labels : LabelsInput) :
    Option PyError × LabeledDimension :=
  let d1 := { d with _labels := np_asarray labels }
  match py_len labels with
  | .ok n => (none, { d1 with _count := n })
  | .error e => (some e, d1)

/-- The `labels` getter of `LabeledDimension` (src `labeled.py` lines
80-83): returns a deep copy of the stored array; in this by-value model
the content itself. Aliasing is modelled separately with an explicit
heap below. -/
def LabeledDimension.labels_get (d : LabeledDimension) : NpArray := d._labels

/-- Python `str.strip()`: removes leading and trailing whitespace. -/
def py_strip (s : String) : String :=
  String.mk (((s.data.dropWhile Char.isWhitespace).reverse.dropWhile Char.isWhitespace).reverse)

/-- `LabeledDimension._get_python_dictionary` (src `labeled.py` lines
67-73): emits `type`, the stripped `description` when non-empty, and
`labels`; the `label` and `application` fields are not emitted. -/
def LabeledDimension._get_python_dictionary (d : LabeledDimension) : InputDict :=
  { type' := some ("labeled")
    description := if py_strip d._description = ("") then none else some (py_strip d._description)
    labels := some d._labels.tolist }

/-- Modelled from the spec: the quantity name derived from a unit is a
property of the unit's physical dimensionality (spec section 4.1). -/
def quantity_name_of (u : PhysUnit) : String := u.dim

/-- Modelled from the spec: `monotonic.py` is not under `src/`. The
monotonic dimension subtype stores the raw quantity-string values, the
parsed coordinate array (cached, in the unit of the first value),
origin offset, period and metadata (spec section 3). -/
structure MonotonicDimension where
  _count : Int
  _values : List Quantity
  _coordinates : QuantityArr
  origin_offset : Quantity
  period : PeriodQ
  label : String
  description : String
  application : App
  reciprocal : Reciprocal
  deriving DecidableEq, Repr

/-- Modelled from the spec: parsing a monotonic value list into the
cached coordinate array, expressed in the unit of the first value. -/
def parse_values (vs : List Quantity) : QuantityArr :=
  match vs with
  | [] => ⟨[], ⟨("dimensionless"), 1, ("")⟩⟩
  | v :: _ => ⟨vs.map (fun q => q.value * q.unit.factor / v.unit.factor), v.unit⟩

/-- Modelled from the spec: the `MonotonicDimension` constructor.
Defaults: origin offset zero, period infinite, both in the unit of the
values; empty metadata (spec section 3). -/
def monotonic_init (values : List Quantity) (origin_offset : Option Quantity)
    (period : Option PeriodQ) (label description : Option String)
    (application : Option App) (reciprocal : Reciprocal) : MonotonicDimension :=
  let arr := parse_values values
  { _count := values.length
    _values := values
    _coordinates := arr
    origin_offset := origin_offset.getD ⟨0, arr.unit⟩
    period := period.getD (PeriodQ.infinite arr.unit)
    label := label.getD ("")
    description := description.getD ("")
    application := application.getD []
    reciprocal := reciprocal }

/-- Modelled from the spec: the `values` setter of a monotonic
dimension replaces the stored values after a dimensionality check
against the established unit family and re-derives the count (spec
section 4.1, coordinates set). -/
def MonotonicDimension.values_set (m : MonotonicDimension) (vs : List Quantity) :
    Except PyError MonotonicDimension :=
  if vs.all (fun q => q.unit.dim == m._coordinates.unit.dim) then
    .ok { m with _values := vs, _coordinates := parse_values vs, _count := vs.length }
  else .error .unitConversionError

/-- Modelled from the spec: `linear.py` is not under `src/`. The linear
dimension subtype stores count, increment, the two offsets, the FFT
ordering flag, period and metadata; coordinates are not stored (spec
section 3). -/
structure LinearDimension where
  _count : Int
  increment : Quantity
  coordinates_offset : Quantity
  origin_offset : Quantity
  fft_output_order : Bool
  period : PeriodQ
  label : String
  description : String
  application : App
  reciprocal : Reciprocal
  deriving DecidableEq, Repr

/-- Modelled from the spec: the coordinate array of a linear dimension
is a pure function of the current field snapshot (spec sections 4.1 and
5): the index array times the increment, in the unit of the increment. -/
def LinearDimension._get_coordinates (l : LinearDimension) : QuantityArr :=
  ⟨(index_array l._count.toNat l.fft_output_order).map (fun (j : Int) => (j : ℚ) * l.increment.value),
    l.increment.unit⟩

/-- Modelled from the spec: the `LinearDimension` constructor. Requires
a count of at least one (spec sections 3 and 7); offsets default to
zero in the increment's unit, the period to infinity, the FFT flag to
false. -/
def linear_init (count : Int) (increment : Quantity)
    (coordinates_offset origin_offset : Option Quantity) (fft : Option Bool)
    (period : Option PeriodQ) (label description : Option String)
    (application : Option App) (reciprocal : Reciprocal) :
    Except PyError LinearDimension :=
  if count < 1 then .error .valueError
  else .ok
    { _count := count
      increment := increment
      coordinates_offset := coordinates_offset.getD ⟨0, increment.unit⟩
      origin_offset := origin_offset.getD ⟨0, increment.unit⟩
      fft_output_order := fft.getD false
      period := period.getD (PeriodQ.infinite increment.unit)
      label := label.getD ("")
      description := description.getD ("")
      application := application.getD []
      reciprocal := reciprocal }

/-- The three dimension subtypes owned by the facade. -/
inductive DimSubtype where
  | linear (l : LinearDimension)
  | monotonic (m : MonotonicDimension)
  | labeled (d : LabeledDimension)
  deriving DecidableEq, Repr

/-- The `Dimension` facade: it owns exactly one subtype instance. The
`objId` component models Python object identity, which `Dimension`
instances are compared by, since the class defines no `__eq__`. -/
structure Dimension where
  objId : Nat
  subtype : DimSubtype
  deriving DecidableEq, Repr

/-- `Dimension.__init__` (src `__init__.py` lines 131-210) together
with the `Dimension.linear` helper (lines 200-210): validates the
`type` discriminant, checks the required keys of the selected subtype
and builds the matching variant. `validate(count, "count", int)` from
the missing `csdfpy.utils` is a type check; the embedded input is
already typed, and the positivity requirement of spec section 7 lives
in the modelled `LinearDimension` constructor. -/
def construct (objId : Nat) (d : InputDict) : Except PyError Dimension :=
  match d.type' with
  | none => .error .valueError
  | some t =>
    if t = ("labeled") then
      match d.labels with
      | none => .error .keyError
      | some ls => .ok ⟨objId, .labeled (labeled_init ls (d.label.getD (""))
          (d.description.getD ("")) (d.application.getD []))⟩
    else if t = ("monotonic") then
      match d.coordinates with
      | none => .error .keyError
      | some vs => .ok ⟨objId, .monotonic (monotonic_init vs d.origin_offset d.period
          d.label d.description d.application (merge_reciprocal d.reciprocal))⟩
    else if t = ("linear") then
      match d.increment, d.count with
      | some inc, some c =>
        match linear_init c inc d.coordinates_offset d.origin_offset d.fft_output_order
            d.period d.label d.description d.application (merge_reciprocal d.reciprocal) with
        | .ok l => .ok ⟨objId, .linear l⟩
        | .error e => .error e
      | _, _ => .error .keyError
    else .error .valueError

/-- The `_count` attribute of the active subtype (read by the facade's
`count` getter and `coordinates` getter). -/
def subtype_count : DimSubtype → Int
  | .linear l => l._count
  | .monotonic m => m._count
  | .labeled d => d._count

/-- The `_coordinates` attribute access `self.subtype._coordinates`
performed by the facade's `coordinates` getter (src `__init__.py` line
387). `LabeledDimension` declares no `_coordinates` slot (src
`labeled.py` line 20), so the access raises `AttributeError` for
labeled dimensions; for the linear subtype the attribute is the pure
coordinate function of the modelled `LinearDimension`. -/
def subtype_coordinates_attr : DimSubtype → Except PyError QuantityArr
  | .linear l => .ok l._get_coordinates
  | .monotonic m => .ok m._coordinates
  | .labeled _ => .error .attributeError

/-- The value returned by the facade's `coordinates` getter: a quantity
array for quantitative dimensions, a label array for labeled ones. -/
inductive CoordValue where
  | quant (a : QuantityArr)
  | labelArr (xs : NpArray)
  deriving DecidableEq, Repr

/-- The facade's `coordinates` getter (src `__init__.py` lines 386-393):
reads `subtype._count`, slices `subtype._coordinates[:_n]`, then
dispatches on the type tag — monotonic returns the slice, linear adds
`coordinates_offset` and converts to the subtype's unit, labeled would
return the labels. The slice of `subtype._coordinates` is evaluated
before the dispatch, so the labeled branch is unreachable: the
attribute access raises first. -/
def Dimension.coordinates (d : Dimension) : Except PyError CoordValue :=
  let n := subtype_count d.subtype
  match subtype_coordinates_attr d.subtype with
  | .error e => .error e
  | .ok arr =>
    let coords : QuantityArr := ⟨py_slice n arr.values, arr.unit⟩
    match d.subtype with
    | .monotonic _ => .ok (.quant coords)
    | .linear l =>
      match qarr_add coords l.coordinates_offset with
      | .error e => .error e
      | .ok a =>
        match qarr_to a l.increment.unit with
        | .error e => .error e
        | .ok a2 => .ok (.quant a2)
    | .labeled lab => .ok (.labelArr lab._labels)

/-- Values assignable through the facade's `coordinates` property:
quantity lists (for monotonic dimensions) or label-style values (for
labeled dimensions). -/
inductive CoordInput where
  | quants (vs : List Quantity)
  | labelsIn (v : LabelsInput)
  deriving DecidableEq, Repr

/-- The facade's `coordinates` setter (src `__init__.py` lines 395-408):
monotonic assigns `subtype.values`, labeled assigns `subtype.labels`,
linear raises `AttributeError` and leaves the state unchanged. The
cross-typed payload combinations are outside the modelled input space
and map to a type error. -/
def Dimension.coordinates_set (d : Dimension) (v : CoordInput) :
    Option PyError × Dimension :=
  match d.subtype with
  | .monotonic m =>
    match v with
    | .quants vs =>
      match m.values_set vs with
      | .ok m' => (none, { d with subtype := .monotonic m' })
      | .error e => (some e, d)
    | .labelsIn _ => (some .typeError, d)
  | .labeled lab =>
    match v with
    | .labelsIn li =>
      let r := lab.labels_set li
      (r.1, { d with subtype := .labeled r.2 })
    | .quants _ => (some .typeError, d)
  | .linear _ => (some .attributeError, d)

/-- The facade's `labels` getter (src `__init__.py` lines 765-794):
returns `subtype.labels`; the quantitative subtypes declare no `labels`
attribute, so the access raises for them. -/
def Dimension.labels_get_facade (d : Dimension) : Except PyError NpArray :=
  match d.subtype with
  | .labeled lab => .ok lab.labels_get
  | _ => .error .attributeError

/-- The facade's `labels` setter (src `__init__.py` lines 796-799):
first assigns `subtype.labels`, then calls
`subtype._get_coordinates(array)` — a method `LabeledDimension` does
not define (src `labeled.py`), so the second step raises
`AttributeError` whenever the first succeeds. The label assignment has
already mutated the subtype when the error is raised. -/
def Dimension.labels_set_facade (d : Dimension) (v : LabelsInput) :
    Option PyError × Dimension :=
  match d.subtype with
  | .labeled lab =>
    let r := lab.labels_set v
    match r.1 with
    | some e => (some e, { d with subtype := .labeled r.2 })
    | none => (some .attributeError, { d with subtype := .labeled r.2 })
  | _ => (some .attributeError, d)

/-- Result of the facade's `count` setter: the raised error if any,
whether the truncation warning was emitted, and the state after the
call. -/
structure CountSetResult where
  err : Option PyError
  warned : Bool
  state : Dimension
  deriving DecidableEq, Repr

/-- Replacing `subtype._count` on a monotonic or labeled dimension. -/
def set_subtype_count (d : Dimension) (v : Int) : Dimension :=
  match d.subtype with
  | .linear l => { d with subtype := .linear { l with _count := v } }
  | .monotonic m => { d with subtype := .monotonic { m with _count := v } }
  | .labeled lab => { d with subtype := .labeled { lab with _count := v } }

/-- The facade's `count` setter (src `__init__.py` lines 622-645): for
linear dimensions the count is stored and the coordinates regenerated
(a pure function here, so no further state change); otherwise a value
above the current count raises `ValueError` with the state unchanged, a
value below it emits the truncation warning and stores the new count,
and an equal value is a no-op. Only `subtype._count` is ever written:
the stored arrays are untouched. -/
def Dimension.count_set (d : Dimension) (value : Int) : CountSetResult :=
  match d.subtype with
  | .linear l => ⟨none, false, { d with subtype := .linear { l with _count := value } }⟩
  | _ =>
    let c := subtype_count d.subtype
    if value > c then ⟨some .valueError, false, d⟩
    else if value < c then ⟨none, true, set_subtype_count d value⟩
    else ⟨none, false, d⟩

/-- Modelled from the spec: serialization of a monotonic dimension
(spec section 6) — `type`, `description` when non-empty, the raw
`coordinates` quantity strings, `origin_offset` when non-zero, the
derived `quantity_name`, `period` when finite, and the common optional
keys when non-default. -/
def MonotonicDimension._get_python_dictionary (m : MonotonicDimension) : InputDict :=
  { type' := some ("monotonic")
    description := if m.description = ("") then none else some m.description
    coordinates := some m._values
    origin_offset := if m.origin_offset.value = 0 then none else some m.origin_offset
    quantity_name := some (quantity_name_of m._coordinates.unit)
    period := if m.period.isInf then none else some m.period
    label := if m.label = ("") then none else some m.label
    application := if m.application = [] then none else some m.application
    reciprocal := if m.reciprocal = default_reciprocal then none
      else some ⟨some m.reciprocal.label, some m.reciprocal.description, some m.reciprocal.application⟩ }

/-- Modelled from the spec: serialization of a linear dimension (spec
section 6) — `type`, `description` when non-empty, `count`,
`increment`, the offsets when non-zero, the derived `quantity_name`,
the FFT ordering flag when true, `period` when finite, and the common
optional keys when non-default. The boolean is serialized under the
same key the facade constructor in src reads (`fft_output_order`),
which the spec's own two-way-inverse requirement forces. -/
def LinearDimension._get_python_dictionary (l : LinearDimension) : InputDict :=
  { type' := some ("linear")
    description := if l.description = ("") then none else some l.description
    count := some l._count
    increment := some l.increment
    coordinates_offset := if l.coordinates_offset.value = 0 then none else some l.coordinates_offset
    origin_offset := if l.origin_offset.value = 0 then none else some l.origin_offset
    quantity_name := some (quantity_name_of l.increment.unit)
    fft_output_order := if l.fft_output_order then some true else none
    period := if l.period.isInf then none else some l.period
    label := if l.label = ("") then none else some l.label
    application := if l.application = [] then none else some l.application
    reciprocal := if l.reciprocal = default_reciprocal then none
      else some ⟨some l.reciprocal.label, some l.reciprocal.description, some l.reciprocal.application⟩ }

/-- `Dimension._get_python_dictionary` (src `__init__.py` lines
821-823): delegates to the active subtype's serializer. -/
def Dimension._get_python_dictionary (d : Dimension) : InputDict :=
  match d.subtype with
  | .linear l => l._get_python_dictionary
  | .monotonic m => m._get_python_dictionary
  | .labeled lab => lab._get_python_dictionary

/-- Python equality of two `Dimension` instances. The facade class (src
`__init__.py` lines 22-854) defines no `__eq__`, so Python falls back
to object identity. -/
def dim_py_eq (a b : Dimension) : Bool := a.objId == b.objId

/-- Python equality of a `Dimension` against a non-`Dimension` value:
identity comparison of distinct objects, always false and never
raising. -/
def dim_py_eq_other (_ : Dimension) (_ : PyScalar) : Bool := false

/-- A small heap of mutable Python objects, used to model the aliasing
behaviour of the `deepcopy` calls in the `LabeledDimension` getters
(src `labeled.py` lines 37-40, 49-52, 80-83, 91-94). Addresses are
allocation indices. -/
structure Heap (α : Type) where
  next : Nat
  mem : Nat → α

/-- Reads the object at an address. -/
def Heap.read {α : Type} (h : Heap α) (r : Nat) : α := h.mem r

/-- Overwrites the object at an address (an in-place mutation of that
object). -/
def Heap.write {α : Type} (h : Heap α) (r : Nat) (v : α) : Heap α :=
  ⟨h.next, fun i => if i = r then v else h.mem i⟩

/-- Allocates a fresh object, returning its address. -/
def Heap.alloc {α : Type} (h : Heap α) (v : α) : Nat × Heap α :=
  (h.next, ⟨h.next + 1, fun i => if i = h.next then v else h.mem i⟩)

/-- `copy.deepcopy`: allocates a fresh object with the same content as
the one at the given address. -/
def py_deepcopy {α : Type} (h : Heap α) (r : Nat) : Nat × Heap α :=
  h.alloc (h.read r)

/-- The mutable objects a labeled dimension instance holds by
reference: its label array and its application dictionary. The string
slots are immutable Python values and are held by value. -/
structure LabeledRefs where
  labelsRef : Nat
  appRef : Nat
  labelVal : String
  descriptionVal : String

/-- The `labels` getter of `LabeledDimension` in the reference model:
`return deepcopy(self._labels)` (src `labeled.py` lines 80-83). -/
def labeled_labels_getter (d : LabeledRefs) (h : Heap (List String)) :
    Nat × Heap (List String) :=
  py_deepcopy h d.labelsRef

/-- The `application` getter of `LabeledDimension` in the reference
model: `return deepcopy(self._application)` (src `labeled.py` lines
91-94). -/
def labeled_application_getter (d : LabeledRefs) (h : Heap App) :
    Nat × Heap App :=
  py_deepcopy h d.appRef

/-- The `label` getter: `return deepcopy(self._label)`; strings are
immutable, so the deep copy is the value itself (src `labeled.py`
lines 37-40). -/
def labeled_label_getter (d : LabeledRefs) : String := d.labelVal

/-- The `description` getter: `return deepcopy(self._description)`
(src `labeled.py` lines 49-52). -/
def labeled_description_getter (d : LabeledRefs) : String := d.descriptionVal

deriving instance DecidableEq for Except

/-- Whether an `Except` computation succeeded. -/
def is_ok {ε α : Type} : Except ε α → Bool
  | .ok _ => true
  | .error _ => false

/-- The label list of the spec's labeled example (section 8). -/
def fixture_labels : List String := [("m"), ("s"), ("t"), ("a")]

/-- A labeled dimension built from the spec's labeled example. -/
def labeledX : Dimension := ⟨0, .labeled (labeled_init fixture_labels ("") ("") [])⟩

/-- The linear dimension of the spec's section 8 example: increment
`10 m/s`, count `10`, coordinates offset `5 m/s`. -/
def linearX : Dimension :=
  ⟨1, .linear
    { _count := 10
      increment := ⟨10, unit_mps⟩
      coordinates_offset := ⟨5, unit_mps⟩
      origin_offset := ⟨0, unit_mps⟩
      fft_output_order := false
      period := PeriodQ.infinite unit_mps
      label := ("")
      description := ("")
      application := []
      reciprocal := default_reciprocal }⟩

/-- A monotonic dimension over the values `1 m`, `100 m`, `1 km`. -/
def monotonicX : Dimension :=
  ⟨2, .monotonic (monotonic_init [⟨1, unit_m⟩, ⟨100, unit_m⟩, ⟨1, unit_km⟩]
    none none none none none default_reciprocal)⟩

/-- A labeled dimension whose serialization matters: non-empty label
and application metadata. -/
def labeledY : Dimension :=
  ⟨3, .labeled (labeled_init [("a"), ("b"), ("c")] ("labeled dimension")
    ("A galaxy far far away.") [(("com.example.app"), ("meta"))])⟩

/-- A linear dimension with non-default offsets, FFT ordering and
application metadata. -/
def linearY : Dimension :=
  ⟨5, .linear
    { _count := 12
      increment := ⟨20, unit_mps⟩
      coordinates_offset := ⟨5, unit_mps⟩
      origin_offset := ⟨1, unit_kmps⟩
      fft_output_order := true
      period := PeriodQ.infinite unit_mps
      label := ("")
      description := ("")
      application := [(("my_application"), (""))]
      reciprocal := default_reciprocal }⟩

/-- Claim C1: the `coordinates` getter returns the linear formula for
linear dimensions and the stored array for monotonic dimensions, but
for labeled dimensions it raises `AttributeError` instead of returning
the label array: `self.subtype._coordinates` (src `__init__.py` line
387) is evaluated before the type dispatch, and `LabeledDimension`
declares no `_coordinates` slot. Evaluated here at the spec's own
examples: the labeled read fails, contradicting the claim and the
getter's docstring. -/
theorem claim_C1_coordinates_getter :
    labeledX.coordinates = .error .attributeError ∧
    linearX.coordinates = .ok (.quant ⟨[5, 15, 25, 35, 45, 55, 65, 75, 85, 95], unit_mps⟩) ∧
    monotonicX.coordinates = .ok (.quant ⟨[1, 100, 1000], unit_m⟩) := by
  refine ⟨?_, ?_, ?_⟩
  · simp [labeledX, Dimension.coordinates, subtype_count, subtype_coordinates_attr]
  · norm_num [linearX, Dimension.coordinates, subtype_count, subtype_coordinates_attr,
      LinearDimension._get_coordinates, index_array, py_slice, qarr_add, qarr_to,
      Quantity.convert, unit_mps,
      (by decide : Int.toNat 10 = 10),
      (by decide : List.range 10 = [0, 1, 2, 3, 4, 5, 6, 7, 8, 9])]
  · norm_num [monotonicX, Dimension.coordinates, subtype_count, subtype_coordinates_attr,
      monotonic_init, parse_values, py_slice, unit_m, unit_km]

/-- Claim C2: the linear index array is `[0, ..., N-1]` without FFT
ordering and, with it, takes the value `k` below the midpoint and
`k - N` above it — which instantiates to the spec's even/odd lists —
with the two worked examples `N = 10` and `N = 11`. -/
theorem claim_C2_index_array :
    (∀ n : Nat, index_array n false = (List.range n).map (fun (k : Nat) => (k : Int))) ∧
    (∀ n : Nat, index_array n true =
      (List.range n).map (fun (k : Nat) => if 2 * k < n then (k : Int) else (k : Int) - n)) ∧
    index_array 10 true = [0, 1, 2, 3, 4, -5, -4, -3, -2, -1] ∧
    index_array 11 true = [0, 1, 2, 3, 4, 5, -5, -4, -3, -2, -1] ∧
    index_array 10 false = [0, 1, 2, 3, 4, 5, 6, 7, 8, 9] :=
  ⟨fun n => by simp [index_array], index_array_fft_eq, by decide, by decide, by decide⟩

/-- Claim C3: the dictionary round trip. For a linear dimension the
round trip reproduces the full observable state, coordinates included;
but for a labeled dimension `LabeledDimension._get_python_dictionary`
(src `labeled.py` lines 67-73) emits only `type`, `description` and
`labels`, so the round trip resets `label` and `application` — the
reconstructed state differs from the original, contradicting the claim
(and the repository's own test expectations, src
`tests/dimension_test.py` lines 342-360). -/
theorem claim_C3_roundtrip :
    construct 4 labeledY._get_python_dictionary =
      .ok ⟨4, .labeled (labeled_init [("a"), ("b"), ("c")] ("")
        ("A galaxy far far away.") [])⟩ ∧
    (labeled_init [("a"), ("b"), ("c")] ("") ("A galaxy far far away.") []) ≠
      (labeled_init [("a"), ("b"), ("c")] ("labeled dimension")
        ("A galaxy far far away.") [(("com.example.app"), ("meta"))]) ∧
    construct 6 linearY._get_python_dictionary = .ok ⟨6, linearY.subtype⟩ ∧
    Dimension.coordinates ⟨6, linearY.subtype⟩ = linearY.coordinates := by
  refine ⟨?_, by decide, ?_, rfl⟩
  · decide
  · norm_num [linearY, Dimension._get_python_dictionary,
      LinearDimension._get_python_dictionary, construct, linear_init,
      quantity_name_of, merge_reciprocal, default_reciprocal, PeriodQ.infinite,
      unit_mps, unit_kmps]
    decide

/-- Two labeled dimensions built from identical dictionaries: distinct
objects with equal fields. -/
def labeledE1 : Dimension := ⟨30, .labeled (labeled_init [("Cu")] ("") ("") [])⟩

/-- A second, separately constructed copy of the same labeled state. -/
def labeledE2 : Dimension := ⟨31, .labeled (labeled_init [("Cu")] ("") ("") [])⟩

/-- A monotonic dimension with origin offset `1 m`. -/
def monotonicO1 : Dimension :=
  ⟨32, .monotonic (monotonic_init [⟨1, unit_m⟩, ⟨2, unit_m⟩]
    (some ⟨1, unit_m⟩) none none none none default_reciprocal)⟩

/-- The same monotonic dimension with origin offset `100 cm`. -/
def monotonicO2 : Dimension :=
  ⟨33, .monotonic (monotonic_init [⟨1, unit_m⟩, ⟨2, unit_m⟩]
    (some ⟨100, unit_cm⟩) none none none none default_reciprocal)⟩

/-- Claim C7: `Dimension` defines no `__eq__` (src `__init__.py` lines
22-854), so Python compares instances by object identity. Two
separately constructed dimensions with identical defining fields are
unequal, and the monotonic `1 m` / `100 cm` pair the claim requires to
be equal is unequal as well, even though the unit conversion does
identify the two origin offsets. Identity equality is reflexive and a
comparison against a non-dimension value is false without raising, but
the claimed field-wise equivalence does not hold. -/
theorem claim_C7_dimension_eq :
    dim_py_eq labeledE1 labeledE2 = false ∧
    labeledE1.subtype = labeledE2.subtype ∧
    dim_py_eq monotonicO1 monotonicO2 = false ∧
    Quantity.convert ⟨100, unit_cm⟩ unit_m = .ok ⟨1, unit_m⟩ ∧
    dim_py_eq labeledE1 labeledE1 = true ∧
    dim_py_eq_other labeledE1 (.int 21) = false := by
  refine ⟨by decide, by decide, by decide, ?_, by decide, rfl⟩
  norm_num [Quantity.convert, unit_cm, unit_m]

/-- A one-label labeled dimension for exercising the labels setter. -/
def c8_lab : LabeledDimension := labeled_init [("x")] ("") ("") []

/-- Claim C8: the `labels` setter of `LabeledDimension` (src
`labeled.py` lines 85-88) performs no validation. A list containing a
non-string element is stored, coerced by numpy to strings, with no
error raised at all; a bare integer raises `TypeError` (from `len`),
not `ValueError`, and only after `_labels` has already been replaced by
the zero-dimensional array — both halves of the claim fail on the
code. -/
theorem claim_C8_labels_setter :
    c8_lab.labels_set (.list [.str ("12"), .str ("1"), .int 4]) =
      (none, { c8_lab with _labels := .ofList [("12"), ("1"), ("4")], _count := 3 }) ∧
    c8_lab.labels_set (.scalar (.int 12)) =
      (some .typeError, { c8_lab with _labels := .ofScalar (.int 12) }) ∧
    ({ c8_lab with _labels := .ofScalar (.int 12) } : LabeledDimension)._labels ≠
      c8_lab._labels := by
  refine ⟨by decide, by decide, by decide⟩

/-- Whether the input dictionary carries a `count` value below one. -/
def count_bad (d : InputDict) : Bool :=
  match d.count with
  | some c => decide (c < 1)
  | none => false

/-- The construction-failure condition exactly as claim C4 states it:
missing or invalid `type`, a missing required key for the selected
type, or a `count` that is not a positive integer (for any type). -/
def c4_claim_fail_cond (d : InputDict) : Bool :=
  match d.type' with
  | none => true
  | some t =>
    if t = ("labeled") then d.labels.isNone || count_bad d
    else if t = ("monotonic") then d.coordinates.isNone || count_bad d
    else if t = ("linear") then d.increment.isNone || d.count.isNone || count_bad d
    else true

/-- The amended construction-failure condition: as the claim states it,
except that a non-positive `count` is only rejected for linear
dimensions — for monotonic and labeled dimensions the `count` key is
ignored at construction. -/
def c4_amended_fail_cond (d : InputDict) : Bool :=
  match d.type' with
  | none => true
  | some t =>
    if t = ("labeled") then d.labels.isNone
    else if t = ("monotonic") then d.coordinates.isNone
    else if t = ("linear") then d.increment.isNone || d.count.isNone || count_bad d
    else true

/-- Claim C4, counterexample: a labeled input dictionary that also
carries `count = 0` satisfies the claim's failure condition (`count` is
not a positive integer) yet constructs successfully — the facade passes
the unused `count` into `LabeledDimension`'s keyword arguments, where
it is ignored. -/
theorem claim_C4_counterexample :
    c4_claim_fail_cond
      { type' := some ("labeled"), labels := some [("a")], count := some 0 } = true ∧
    construct 7 { type' := some ("labeled"), labels := some [("a")], count := some 0 } =
      .ok ⟨7, .labeled (labeled_init [("a")] ("") ("") [])⟩ := by
  refine ⟨by decide, by decide⟩

/-- Claim C4 as amended: construction fails exactly when `type` is
missing or invalid, a required key of the selected type is missing, or
— for linear dimensions only — `count` is present but not a positive
integer. -/
theorem claim_C4_construct_iff (i : Nat) (d : InputDict) :
    is_ok (construct i d) = !(c4_amended_fail_cond d) := by
  rcases d with ⟨t, desc, cnt, inc, labs, coords, co, oo, fft, per, qn, lab, app, rec⟩
  cases t with
  | none => rfl
  | some t =>
    by_cases h1 : t = ("labeled")
    · subst h1
      cases labs <;> simp [construct, c4_amended_fail_cond, is_ok]
    · by_cases h2 : t = ("monotonic")
      · subst h2
        cases coords <;> simp [construct, c4_amended_fail_cond, is_ok]
      · by_cases h3 : t = ("linear")
        · subst h3
          cases inc with
          | none =>
            cases cnt <;> simp [construct, c4_amended_fail_cond, is_ok, count_bad]
          | some q =>
            cases cnt with
            | none => simp [construct, c4_amended_fail_cond, is_ok, count_bad]
            | some c =>
              by_cases hc : c < 1
              · simp [construct, c4_amended_fail_cond, is_ok, count_bad, linear_init, hc]
              · simp [construct, c4_amended_fail_cond, is_ok, count_bad, linear_init, hc]
        · simp [construct, c4_amended_fail_cond, is_ok, h1, h2, h3]

/-- A linear dimension fixture for the setter theorems. -/
def c5_lin : LinearDimension :=
  { _count := 10
    increment := ⟨10, unit_mps⟩
    coordinates_offset := ⟨5, unit_mps⟩
    origin_offset := ⟨0, unit_mps⟩
    fft_output_order := false
    period := PeriodQ.infinite unit_mps
    label := ("")
    description := ("")
    application := []
    reciprocal := default_reciprocal }

/-- A three-value monotonic dimension fixture. -/
def c5_mono : MonotonicDimension :=
  monotonic_init [⟨1, unit_m⟩, ⟨2, unit_m⟩, ⟨3, unit_m⟩]
    none none none none none default_reciprocal

/-- A labeled dimension fixture over the spec's labels. -/
def c5_labd : LabeledDimension := labeled_init fixture_labels ("") ("") []

/-- Claim C5, counterexample: shrinking `count` on a labeled dimension
emits the warning and reduces the count, but the stored label array is
NOT truncated — both the labels getter and the serializer still return
all four original labels after the count was set to two. -/
theorem claim_C5_counterexample :
    (labeledX.count_set 2).err = none ∧
    (labeledX.count_set 2).warned = true ∧
    subtype_count (labeledX.count_set 2).state.subtype = 2 ∧
    (labeledX.count_set 2).state.labels_get_facade = .ok (.ofList fixture_labels) ∧
    ((labeledX.count_set 2).state._get_python_dictionary).labels = some fixture_labels ∧
    fixture_labels.length = 4 := by
  refine ⟨by decide, by decide, by decide, by decide, by decide, by decide⟩

/-- The behaviour of the `count` setter over all three variants. -/
def c5_prop (i : Nat) (l : LinearDimension) (m : MonotonicDimension)
    (lab : LabeledDimension) (v1 v2 v3 v4 v5 : Int) : Prop :=
  Dimension.count_set ⟨i, .linear l⟩ v1 =
    ⟨none, false, ⟨i, .linear { l with _count := v1 }⟩⟩ ∧
  Dimension.count_set ⟨i, .monotonic m⟩ v2 =
    ⟨some .valueError, false, ⟨i, .monotonic m⟩⟩ ∧
  Dimension.count_set ⟨i, .monotonic m⟩ v3 =
    ⟨none, true, ⟨i, .monotonic { m with _count := v3 }⟩⟩ ∧
  Dimension.coordinates ⟨i, .monotonic { m with _count := v3 }⟩ =
    .ok (.quant ⟨py_slice v3 m._coordinates.values, m._coordinates.unit⟩) ∧
  Dimension.count_set ⟨i, .labeled lab⟩ v4 =
    ⟨some .valueError, false, ⟨i, .labeled lab⟩⟩ ∧
  Dimension.count_set ⟨i, .labeled lab⟩ v5 =
    ⟨none, true, ⟨i, .labeled { lab with _count := v5 }⟩⟩ ∧
  ({ lab with _count := v5 } : LabeledDimension)._labels = lab._labels

/-- Claim C5 as amended: a linear dimension accepts any positive count
and regenerates its coordinates; monotonic and labeled dimensions
reject growth with a `ValueError` and unchanged state, and on shrink
warn and store the reduced count — which truncates the coordinate view
for monotonic dimensions, while for labeled dimensions the stored label
array itself is left untouched. -/
theorem claim_C5_count_set (i : Nat) (l : LinearDimension) (m : MonotonicDimension)
    (lab : LabeledDimension) (v1 v2 v3 v4 v5 : Int)
    (_h1 : 0 < v1) (h2 : m._count < v2) (h3 : v3 < m._count)
    (h4 : lab._count < v4) (h5 : v5 < lab._count) :
    c5_prop i l m lab v1 v2 v3 v4 v5 := by
  unfold c5_prop
  refine ⟨rfl, ?_, ?_, rfl, ?_, ?_, rfl⟩
  · simp only [Dimension.count_set, subtype_count]
    rw [if_pos h2]
  · simp only [Dimension.count_set, subtype_count, set_subtype_count]
    rw [if_neg (by omega), if_pos h3]
  · simp only [Dimension.count_set, subtype_count]
    rw [if_pos h4]
  · simp only [Dimension.count_set, subtype_count, set_subtype_count]
    rw [if_neg (by omega), if_pos h5]

/-- Witness for claim C5's theorem at concrete inputs. -/
theorem claim_C5_count_set_witness : c5_prop 40 c5_lin c5_mono c5_labd 3 10 2 10 2 :=
  claim_C5_count_set 40 c5_lin c5_mono c5_labd 3 10 2 10 2
    (by decide) (by decide) (by decide) (by decide) (by decide)

/-- The behaviour of the facade's `coordinates` setter over the three
variants. -/
def c6_prop (i : Nat) (l : LinearDimension) (m : MonotonicDimension)
    (vs bad : List Quantity) (lab : LabeledDimension) (xs : List PyScalar) : Prop :=
  Dimension.coordinates_set ⟨i, .linear l⟩ (.quants vs) =
    (some .attributeError, ⟨i, .linear l⟩) ∧
  Dimension.coordinates_set ⟨i, .monotonic m⟩ (.quants vs) =
    (none, ⟨i, .monotonic
      { m with _values := vs, _coordinates := parse_values vs, _count := (vs.length : Int) }⟩) ∧
  Dimension.coordinates_set ⟨i, .monotonic m⟩ (.quants bad) =
    (some .unitConversionError, ⟨i, .monotonic m⟩) ∧
  Dimension.coordinates_set ⟨i, .labeled lab⟩ (.labelsIn (.list xs)) =
    (none, ⟨i, .labeled
      { lab with _labels := .ofList (xs.map np_coerce), _count := (xs.length : Int) }⟩)

/-- Claim C6: assigning `coordinates` succeeds for monotonic dimensions
when the values pass the dimensionality check (replacing the stored
values and re-deriving the count), fails with a unit-conversion error
and unchanged state when they do not, succeeds for labeled dimensions
(replacing the labels and re-deriving the count), and always raises the
immutable-derived-attribute error for linear dimensions with the state
unchanged. -/
theorem claim_C6_coordinates_set (i : Nat) (l : LinearDimension)
    (m : MonotonicDimension) (vs bad : List Quantity) (lab : LabeledDimension)
    (xs : List PyScalar)
    (hgood : vs.all (fun q => q.unit.dim == m._coordinates.unit.dim) = true)
    (hbad : bad.all (fun q => q.unit.dim == m._coordinates.unit.dim) = false) :
    c6_prop i l m vs bad lab xs := by
  unfold c6_prop
  refine ⟨rfl, ?_, ?_, ?_⟩
  · simp [Dimension.coordinates_set, MonotonicDimension.values_set, hgood]
  · simp [Dimension.coordinates_set, MonotonicDimension.values_set, hbad]
  · simp [Dimension.coordinates_set, LabeledDimension.labels_set, np_asarray, py_len]

/-- Length-two metre values accepted by the monotonic fixture. -/
def c6_vs : List Quantity := [⟨1, unit_m⟩, ⟨2, unit_m⟩]

/-- Length-two second values rejected by the monotonic fixture. -/
def c6_bad : List Quantity := [⟨1, unit_s⟩, ⟨2, unit_s⟩]

/-- Witness for claim C6's theorem at concrete inputs. -/
theorem claim_C6_coordinates_set_witness :
    c6_prop 41 c5_lin c5_mono c6_vs c6_bad c5_labd [.str ("a"), .int 7] :=
  claim_C6_coordinates_set 41 c5_lin c5_mono c6_vs c6_bad c5_labd [.str ("a"), .int 7]
    (by decide) (by decide)

/-- Independence of a labeled dimension's stored state from mutations
applied to the values its getters return. -/
def c9_prop (d : LabeledRefs) (hL : Heap (List String)) (hA : Heap App)
    (v : List String) (w : App) : Prop :=
  (labeled_labels_getter d hL).1 ≠ d.labelsRef ∧
  ((labeled_labels_getter d hL).2).read (labeled_labels_getter d hL).1 =
    hL.read d.labelsRef ∧
  ((labeled_labels_getter d hL).2).read d.labelsRef = hL.read d.labelsRef ∧
  (((labeled_labels_getter d hL).2).write (labeled_labels_getter d hL).1 v).read
      d.labelsRef = hL.read d.labelsRef ∧
  (labeled_application_getter d hA).1 ≠ d.appRef ∧
  ((labeled_application_getter d hA).2).read (labeled_application_getter d hA).1 =
    hA.read d.appRef ∧
  (((labeled_application_getter d hA).2).write (labeled_application_getter d hA).1 w).read
      d.appRef = hA.read d.appRef ∧
  labeled_label_getter d = d.labelVal ∧
  labeled_description_getter d = d.descriptionVal

/-- Claim C9: the `labels` and `application` getters return fresh deep
copies whose content equals the stored content, and overwriting the
returned object leaves the stored object unchanged; the `label` and
`description` getters return the stored immutable strings. -/
theorem claim_C9_getters_deepcopy (d : LabeledRefs) (hL : Heap (List String))
    (hA : Heap App) (v : List String) (w : App)
    (h1 : d.labelsRef < hL.next) (h2 : d.appRef < hA.next) :
    c9_prop d hL hA v w := by
  have e1 : d.labelsRef ≠ hL.next := Nat.ne_of_lt h1
  have e2 : d.appRef ≠ hA.next := Nat.ne_of_lt h2
  unfold c9_prop labeled_labels_getter labeled_application_getter py_deepcopy
    Heap.alloc Heap.read Heap.write labeled_label_getter labeled_description_getter
  exact ⟨Ne.symm e1, by simp, by simp [e1], by simp [e1],
    Ne.symm e2, by simp, by simp [e2], rfl, rfl⟩

/-- Witness for claim C9's theorem at a concrete dimension and heaps. -/
theorem claim_C9_getters_deepcopy_witness :
    c9_prop ⟨0, 0, ("lbl"), ("desc")⟩ ⟨1, fun _ => fixture_labels⟩ ⟨1, fun _ => []⟩
      [("z")] [(("k"), ("v"))] :=
  claim_C9_getters_deepcopy ⟨0, 0, ("lbl"), ("desc")⟩ ⟨1, fun _ => fixture_labels⟩
    ⟨1, fun _ => []⟩ [("z")] [(("k"), ("v"))] (by decide) (by decide)

/-- Claim C10, counterexample: assigning a bare integer through the
facade's `labels` property raises `TypeError` (from `len` in the labels
setter), not `AttributeError` — the claim's "every assigned value" is
too strong. -/
theorem claim_C10_counterexample :
    labeledX.labels_set_facade (.scalar (.int 12)) =
      (some .typeError,
        ⟨0, .labeled { labeled_init fixture_labels ("") ("") [] with
          _labels := .ofScalar (.int 12) }⟩) ∧
    some PyError.typeError ≠ some PyError.attributeError := by
  refine ⟨by decide, by decide⟩

/-- The behaviour of the facade's `labels` and `coordinates` setters on
a labeled dimension. -/
def c10_prop (i : Nat) (lab : LabeledDimension) (xs : List PyScalar) (s : String)
    (n : Int) (ys : List String) : Prop :=
  (Dimension.labels_set_facade ⟨i, .labeled lab⟩ (.list xs)).1 = some .attributeError ∧
  (Dimension.labels_set_facade ⟨i, .labeled lab⟩ (.scalar (.str s))).1 = some .attributeError ∧
  (Dimension.labels_set_facade ⟨i, .labeled lab⟩ (.scalar (.int n))).1 = some .typeError ∧
  Dimension.coordinates_set ⟨i, .labeled lab⟩ (.labelsIn (.list (ys.map .str))) =
    (none, ⟨i, .labeled { lab with _labels := .ofList ys, _count := (ys.length : Int) }⟩)

/-- Claim C10 as amended: for every sequence value (and for strings,
whose `len` succeeds) the facade's `labels` setter raises
`AttributeError` because `LabeledDimension` defines no
`_get_coordinates`; for a bare integer it raises the labels setter's
`TypeError` instead; and assigning a list of strings through the
facade's `coordinates` property succeeds, replacing the labels. -/
theorem claim_C10_facade_labels_set (i : Nat) (lab : LabeledDimension)
    (xs : List PyScalar) (s : String) (n : Int) (ys : List String) :
    c10_prop i lab xs s n ys := by
  unfold c10_prop
  refine ⟨rfl, rfl, rfl, ?_⟩
  have hmap : ∀ zs : List String, List.map (np_coerce ∘ PyScalar.str) zs = zs := by
    intro zs
    induction zs with
    | nil => rfl
    | cons z zs ih => simp [ih, np_coerce]
  simp [Dimension.coordinates_set, LabeledDimension.labels_set, np_asarray, py_len,
    List.map_map, hmap]
